import Mathlib

/-!
Shallow embedding of `src/src/components/ContactForm.tsx` (the ContactForm
React component of the Evakech repository): its field-state store, validator,
submission state machine, delivery-call construction, and the one-time
stylesheet injection.  Machine-checked statements of the specification's
claims follow the definitions.
-/

namespace ContactForm

/-- The six-field form state, mirroring `interface FormData` (lines 4-11). -/
structure FormData where
  firstname : String
  lastname : String
  email : String
  phone : String
  service : String
  message : String
deriving DecidableEq, Repr

/-- The `useState<FormData>` initial value (lines 14-21): all six fields empty. -/
def emptyFormData : FormData :=
  { firstname := "", lastname := "", email := "", phone := "", service := "", message := "" }

/-- The submission status union `'idle' | 'sending' | 'success' | 'error'` (line 23). -/
inductive Status where
  | idle
  | sending
  | success
  | error
deriving DecidableEq, Repr

/-- The component's reactive state: `formData`, `status`, `errorMessage`
(lines 14-24). -/
structure ComponentState where
  formData : FormData
  status : Status
  errorMessage : String
deriving DecidableEq, Repr

/-! ### Regular-expression semantics

The two literal regexes of `validateForm` (lines 41 and 48) are plain anchored
concatenations of counted character classes, so we embed them with a small
backtracking matcher over such sequences. -/

/-- One regex item: a character class repeated between `lo` and `hi` times
(`cls`), or one-or-more times (`plus`, for `+`). -/
inductive PatItem where
  | cls (f : Char → Bool) (lo hi : Nat)
  | plus (f : Char → Bool)

/-- Consume exactly `n` characters all satisfying `f`; return the rest. -/
def dropCls (f : Char → Bool) : Nat → List Char → Option (List Char)
  | 0, s => some s
  | _ + 1, [] => none
  | n + 1, c :: s => if f c then dropCls f n s else none

/-- All suffixes obtained by consuming one or more leading characters
satisfying `f` (the backtracking choices of `+`). -/
def plusSplits (f : Char → Bool) : List Char → List (List Char)
  | [] => []
  | c :: s => if f c then s :: plusSplits f s else []

/-- Anchored match (`^...$`) of a sequence of items against a character list,
with full backtracking over the repetition counts. -/
def matchItems : List PatItem → List Char → Bool
  | [], s => s.isEmpty
  | PatItem.cls f lo hi :: rest, s =>
    (List.range (hi + 1 - lo)).any fun k =>
      match dropCls f (lo + k) s with
      | some s' => matchItems rest s'
      | none => false
  | PatItem.plus f :: rest, s =>
    (plusSplits f s).any fun s' => matchItems rest s'

/-- JavaScript `\s`: the ECMAScript WhiteSpace and LineTerminator code points. -/
def isJsWhitespace (c : Char) : Bool :=
  c.toNat ∈ [9, 10, 11, 12, 13, 32, 0xA0, 0x1680,
    0x2000, 0x2001, 0x2002, 0x2003, 0x2004, 0x2005, 0x2006, 0x2007,
    0x2008, 0x2009, 0x200A, 0x2028, 0x2029, 0x202F, 0x205F, 0x3000, 0xFEFF]

/-- The class `[-\s\.]` used as group separator in the phone regex. -/
def isPhoneSep (c : Char) : Bool :=
  c = '-' || isJsWhitespace c || c = '.'

/-- The class `[^\s@]` of the email regex. -/
def isEmailChar (c : Char) : Bool :=
  !isJsWhitespace c && c ≠ '@'

/-- The phone regex of `validateForm` (line 41):
`^[\+]?[(]?[0-9]{3}[)]?[-\s\.]?[0-9]{3}[-\s\.]?[0-9]{4,6}$`. -/
def phoneRegexItems : List PatItem :=
  [PatItem.cls (· = '+') 0 1,
   PatItem.cls (· = '(') 0 1,
   PatItem.cls Char.isDigit 3 3,
   PatItem.cls (· = ')') 0 1,
   PatItem.cls isPhoneSep 0 1,
   PatItem.cls Char.isDigit 3 3,
   PatItem.cls isPhoneSep 0 1,
   PatItem.cls Char.isDigit 4 6]

/-- `phoneRegex.test(value)` (line 42). -/
def phoneRegexTest (s : String) : Bool :=
  matchItems phoneRegexItems s.toList

/-- The email regex of `validateForm` (line 48): `^[^\s@]+@[^\s@]+\.[^\s@]+$`. -/
def emailRegexItems : List PatItem :=
  [PatItem.plus isEmailChar,
   PatItem.cls (· = '@') 1 1,
   PatItem.plus isEmailChar,
   PatItem.cls (· = '.') 1 1,
   PatItem.plus isEmailChar]

/-- `emailRegex.test(value)` (line 49). -/
def emailRegexTest (s : String) : Bool :=
  matchItems emailRegexItems s.toList

/-! ### Validator -/

/-- User-facing message set on phone-pattern failure (line 43). -/
def phoneInvalidMessage : String := "Numéro de téléphone invalide"

/-- User-facing message set on email-pattern failure (line 50). -/
def emailInvalidMessage : String := "Email invalide"

/-- Generic retry-prompting message set when the delivery call throws (line 108). -/
def genericErrorMessage : String := "Une erreur est survenue. Veuillez réessayer."

/-- `validateForm` (lines 39-55).  The source returns `boolean` and reports
the failure through `setErrorMessage`; we return the message it would set,
`none` meaning the validator returned `true`.  The phone check runs first and
short-circuits the email check. -/
def validateForm (fd : FormData) : Option String :=
  if !phoneRegexTest fd.phone then some phoneInvalidMessage
  else if !emailRegexTest fd.email then some emailInvalidMessage
  else none

/-! ### Field-state store -/

/-- The closed set of field names carried by the rendered controls'
`name` attributes (lines 139, 152, 166, 180, 193, 212). -/
inductive FieldName where
  | firstname
  | lastname
  | email
  | phone
  | service
  | message
deriving DecidableEq, Repr

/-- Read one field of `FormData` by name. -/
def getField (fd : FormData) : FieldName → String
  | FieldName.firstname => fd.firstname
  | FieldName.lastname => fd.lastname
  | FieldName.email => fd.email
  | FieldName.phone => fd.phone
  | FieldName.service => fd.service
  | FieldName.message => fd.message

/-- The computed-key spread `{...prev, [name]: value}` of `handleChange`
(lines 33-36): replace the named field, keep the rest of the record. -/
def setField (fd : FormData) : FieldName → String → FormData
  | FieldName.firstname, v => { fd with firstname := v }
  | FieldName.lastname, v => { fd with lastname := v }
  | FieldName.email, v => { fd with email := v }
  | FieldName.phone, v => { fd with phone := v }
  | FieldName.service, v => { fd with service := v }
  | FieldName.message, v => { fd with message := v }

/-- `handleChange` (lines 31-37): updates `formData` from the event target's
`name` and `value`; touches neither `status` nor `errorMessage`. -/
def handleChange (s : ComponentState) (n : FieldName) (v : String) : ComponentState :=
  { s with formData := setField s.formData n v }

/-! ### Submission controller -/

/-- The `templateParams` object (lines 73-78): the spread of `formData` plus
the derived `date`, `to_email` and `reply_to` fields. -/
structure TemplateParams where
  firstname : String
  lastname : String
  email : String
  phone : String
  service : String
  message : String
  date : String
  to_email : String
  reply_to : String
deriving DecidableEq, Repr

/-- Build `templateParams` from the current form data and the formatted
current time `new Date().toLocaleString(\x27fr-FR\x27)` (lines 73-78). -/
def mkTemplateParams (fd : FormData) (now : String) : TemplateParams :=
  { firstname := fd.firstname, lastname := fd.lastname, email := fd.email,
    phone := fd.phone, service := fd.service, message := fd.message,
    date := now, to_email := "contact@evakech.com", reply_to := fd.email }

/-- Settlement of the awaited `emailjs.send` call (line 81): either it
resolves with an HTTP-like `response.status`, or it rejects/throws. -/
inductive SendOutcome where
  | resolved (code : Nat)
  | thrown
deriving DecidableEq, Repr

/-- What a scheduled `setTimeout` callback does when it fires: the success
timer (lines 101-103) only resets `status`, the failure timer (lines 111-114)
also clears `errorMessage`. -/
inductive TimerAction where
  | resetStatusToIdle
  | resetStatusAndMessage
deriving DecidableEq, Repr

/-- A pending single-shot `setTimeout`: its delay in milliseconds and its
callback's effect. -/
structure Timer where
  delayMs : Nat
  action : TimerAction
deriving DecidableEq, Repr

/-- The delay of both auto-reset timers: `5000` ms (lines 103, 114), the
spec's fixed delay of 5 time units (seconds). -/
def fixedDelayMs : Nat := 5000

/-- Apply a fired timer callback to the component state. -/
def runTimer : TimerAction → ComponentState → ComponentState
  | TimerAction.resetStatusToIdle, s => { s with status := Status.idle }
  | TimerAction.resetStatusAndMessage, s =>
    { s with status := Status.idle, errorMessage := "" }

/-- The observable result of one `handleSubmit` run: the component state when
the handler finishes, the `emailjs.send` invocations it made, and the
`setTimeout` timers it scheduled. -/
structure SubmitResult where
  state : ComponentState
  calls : List TemplateParams
  timers : List Timer
deriving DecidableEq, Repr

/-- `handleSubmit` (lines 57-116), with the settlement of the awaited send
supplied as `o` and the formatted current time as `now`.  It clears
`errorMessage`, runs `validateForm` (on failure setting the validator's
message and `status=error`, with no send and no timer), otherwise sets
`status=sending`, builds `templateParams` and awaits `emailjs.send`; a
resolved status 200 resets the form, sets `status=success` and schedules the
5000 ms reset timer; a resolved status other than 200 falls through the
`if` with no further effect; a rejection is caught, setting `status=error`
with the generic message and scheduling the 5000 ms reset timer. -/
def handleSubmit (s : ComponentState) (now : String) (o : SendOutcome) : SubmitResult :=
  let s1 : ComponentState := { s with errorMessage := "" }
  match validateForm s1.formData with
  | some msg =>
    { state := { s1 with status := Status.error, errorMessage := msg },
      calls := [], timers := [] }
  | none =>
    let s2 : ComponentState := { s1 with status := Status.sending }
    let tp : TemplateParams := mkTemplateParams s2.formData now
    match o with
    | SendOutcome.resolved code =>
      if code = 200 then
        { state := { s2 with status := Status.success, formData := emptyFormData },
          calls := [tp],
          timers := [{ delayMs := fixedDelayMs, action := TimerAction.resetStatusToIdle }] }
      else
        { state := s2, calls := [tp], timers := [] }
    | SendOutcome.thrown =>
      { state := { s2 with status := Status.error, errorMessage := genericErrorMessage },
        calls := [tp],
        timers := [{ delayMs := fixedDelayMs, action := TimerAction.resetStatusAndMessage }] }

/-- The rendered submit control and every input carry
`disabled={status === \x27sending\x27}` (lines 143, 156, 171, 185, 197, 217,
226, 239), so while `status` is `sending` no user action can fire the form's
submit event. -/
def submitControlsDisabled (s : ComponentState) : Bool :=
  s.status = Status.sending

/-- A user-level submit attempt on the rendered form: while the controls are
disabled (status `sending`) the submit event cannot fire and nothing happens;
otherwise `handleSubmit` runs. -/
def triggerSubmit (s : ComponentState) (now : String) (o : SendOutcome) : SubmitResult :=
  if submitControlsDisabled s then { state := s, calls := [], timers := [] }
  else handleSubmit s now o

/-! ### Stylesheet injection -/

/-- A DOM element as far as the injection code observes it: tag name, `id`
attribute, text content. -/
structure DomElement where
  tag : String
  id : String
  textContent : String
deriving DecidableEq, Repr

/-- The marker identifier of the injected stylesheet (lines 422-424). -/
def stylesId : String := "contact-form-styles"

/-- The `styles` CSS template literal (lines 417 onward); its text is
immaterial to the injection logic, which only consults element ids, so the
stylesheet body is abbreviated to its first rule here. -/
def styles : String :=
  ".contact-form \x7b max-width: 600px; margin: 0 auto; padding: 2rem; \x7d"

/-- `document.getElementById` over a document modelled as the ordered list of
its elements: the first element with the given id, if any. -/
def getElementById (d : List DomElement) (i : String) : Option DomElement :=
  d.find? fun e => e.id = i

/-- The module-level injection step (lines 421-427): if no element with id
`contact-form-styles` exists, create a `style` element with that id and the
CSS text and append it to the document; otherwise do nothing. -/
def injectStyles (d : List DomElement) : List DomElement :=
  match getElementById d stylesId with
  | some _ => d
  | none => d ++ [{ tag := "style", id := stylesId, textContent := styles }]

/-- The number of stylesheet elements carrying the marker id in a document. -/
def countMarkedStyles (d : List DomElement) : Nat :=
  (d.filter fun e => e.tag = "style" && e.id = stylesId).length

/-! ### Concrete states used in scenarios and witnesses -/

/-- A field state accepted by both validator checks
(`"0612345678"` parses as 3+3+4 digits, `"a@b.c"` is `local@domain.tld`). -/
def validFields : FormData :=
  { firstname := "A", lastname := "B", email := "a@b.c",
    phone := "0612345678", service := "Autre", message := "" }

/-- The specification's scenario input. -/
def janeFields : FormData :=
  { firstname := "Jane", lastname := "Doe", email := "jane@example.com",
    phone := "+212 600 000 000", service := "Autre", message := "" }

/-- The scenario input with the phone regrouped as 3+3+6 digits, which the
phone pattern accepts. -/
def janeFieldsAmended : FormData :=
  { janeFields with phone := "+212 600 000000" }

/-- An idle component state holding the given fields, as after typing them
into a freshly mounted form. -/
def mkState (fd : FormData) : ComponentState :=
  { formData := fd, status := Status.idle, errorMessage := "" }

/-- `validFields` with the phone replaced by `"123"`, which the phone
pattern rejects. -/
def phoneBadFields : FormData :=
  { validFields with phone := "123" }

/-- `validFields` with the email replaced by `"not-an-email"`, which the
email pattern rejects. -/
def emailBadFields : FormData :=
  { validFields with email := "not-an-email" }

/-! ### General lemmas about `handleSubmit` -/

/-- When validation succeeds, one `handleSubmit` run makes exactly the one
delivery call built from the submitted fields, whatever the send's outcome. -/
theorem handleSubmit_calls (s : ComponentState) (now : String) (o : SendOutcome)
    (h : validateForm s.formData = none) :
    (handleSubmit s now o).calls = [mkTemplateParams s.formData now] := by
  cases o with
  | resolved code =>
    by_cases hc : code = 200 <;> simp [handleSubmit, h, hc]
  | thrown => simp [handleSubmit, h]

/-- When validation fails, `handleSubmit` produces the error state with the
validator's message, no delivery call and no timer. -/
theorem handleSubmit_invalid (s : ComponentState) (now : String) (o : SendOutcome)
    (msg : String) (h : validateForm s.formData = some msg) :
    handleSubmit s now o =
      { state := { formData := s.formData, status := Status.error, errorMessage := msg },
        calls := [], timers := [] } := by
  simp [handleSubmit, h]

/-! ### Claims -/

/-- Claim C1, counterexample: on the specification's scenario input
`{firstName:"Jane", lastName:"Doe", email:"jane@example.com",
phone:"+212 600 000 000", service:"Autre", message:""}` the validator does
NOT pass: the phone pattern (3+3+(4-6) digit groups, so at most two
separators) rejects `"+212 600 000 000"`, and `submit()` issues no delivery
call, setting `status=error` with the phone-invalid message. -/
theorem jane_scenario_counterexample :
    phoneRegexTest janeFields.phone = false ∧
    (handleSubmit (mkState janeFields) "d" (SendOutcome.resolved 200)).calls = [] ∧
    (handleSubmit (mkState janeFields) "d" (SendOutcome.resolved 200)).state.status
      = Status.error := by
  decide

/-- Claim C1 (amended): with the scenario's phone regrouped to
`"+212 600 000000"` — which the phone pattern accepts — and the other five
fields as given, the validator passes and `submit()` issues exactly one
delivery call whose `reply_to` field equals `"jane@example.com"`; the
original phone `"+212 600 000 000"` fails the phone check. -/
theorem jane_scenario_amended (now : String) (o : SendOutcome) :
    validateForm janeFieldsAmended = none ∧
    ((handleSubmit (mkState janeFieldsAmended) now o).calls.map TemplateParams.reply_to)
      = ["jane@example.com"] := by
  have hv : validateForm janeFieldsAmended = none := by decide
  refine ⟨hv, ?_⟩
  rw [handleSubmit_calls _ now o hv]
  simp [mkTemplateParams, mkState, janeFieldsAmended, janeFields]

/-- Claim C2: for every field state whose phone value fails the phone
pattern, `submit()` sets `status=error` with the phone-invalid message
`"Numéro de téléphone invalide"` and never invokes the delivery adapter. -/
theorem submit_phone_invalid (s : ComponentState) (now : String) (o : SendOutcome)
    (h : phoneRegexTest s.formData.phone = false) :
    (handleSubmit s now o).state.status = Status.error ∧
    (handleSubmit s now o).state.errorMessage = phoneInvalidMessage ∧
    (handleSubmit s now o).calls = [] := by
  have hv : validateForm s.formData = some phoneInvalidMessage := by
    simp [validateForm, h]
  simp [handleSubmit_invalid s now o phoneInvalidMessage hv]

/-- Witness for C2 at phone `"123"`. -/
theorem submit_phone_invalid_witness :
    (handleSubmit (mkState phoneBadFields) "d" SendOutcome.thrown).state.status
      = Status.error ∧
    (handleSubmit (mkState phoneBadFields) "d" SendOutcome.thrown).state.errorMessage
      = phoneInvalidMessage ∧
    (handleSubmit (mkState phoneBadFields) "d" SendOutcome.thrown).calls = [] :=
  submit_phone_invalid (mkState phoneBadFields) "d" SendOutcome.thrown (by decide)

/-- Claim C3: for every field state whose phone value passes the phone
pattern but whose email value fails the email pattern, `submit()` sets
`status=error` with the email-invalid message `"Email invalide"` and never
invokes the delivery adapter — the phone check ran first and only the first
failure's message is surfaced. -/
theorem submit_email_invalid (s : ComponentState) (now : String) (o : SendOutcome)
    (hp : phoneRegexTest s.formData.phone = true)
    (he : emailRegexTest s.formData.email = false) :
    (handleSubmit s now o).state.status = Status.error ∧
    (handleSubmit s now o).state.errorMessage = emailInvalidMessage ∧
    (handleSubmit s now o).calls = [] := by
  have hv : validateForm s.formData = some emailInvalidMessage := by
    simp [validateForm, hp, he]
  simp [handleSubmit_invalid s now o emailInvalidMessage hv]

/-- Witness for C3 at phone `"0612345678"` (valid), email `"not-an-email"`. -/
theorem submit_email_invalid_witness :
    (handleSubmit (mkState emailBadFields) "d" SendOutcome.thrown).state.status
      = Status.error ∧
    (handleSubmit (mkState emailBadFields) "d" SendOutcome.thrown).state.errorMessage
      = emailInvalidMessage ∧
    (handleSubmit (mkState emailBadFields) "d" SendOutcome.thrown).calls = [] :=
  submit_email_invalid (mkState emailBadFields) "d" SendOutcome.thrown (by decide) (by decide)

/-- Claim C4, counterexample: the validation-failure path sets `status=error`
but schedules no timer at all — `handleSubmit` on the state with phone
`"123"` returns with `status=error` and an empty timer list, so not every
error-setting path schedules the 5-second return to idle. -/
theorem error_timer_counterexample :
    (handleSubmit (mkState phoneBadFields) "d" SendOutcome.thrown).state.status
      = Status.error ∧
    (handleSubmit (mkState phoneBadFields) "d" SendOutcome.thrown).timers = [] := by
  decide

/-- Claim C4 (amended): only the delivery-failure error path schedules the
automatic single-shot return of `status` to idle after the fixed 5000 ms
(5 s) delay; the validation-failure path sets `status=error` without
scheduling any timer, so that error state persists until the next user
action. -/
theorem submit_error_reset_timers (s s' : ComponentState) (now now' : String)
    (o : SendOutcome) (msg : String)
    (hv : validateForm s.formData = some msg)
    (hv' : validateForm s'.formData = none) :
    ((handleSubmit s now o).state.status = Status.error ∧
      (handleSubmit s now o).timers = []) ∧
    ((handleSubmit s' now' SendOutcome.thrown).state.status = Status.error ∧
      (handleSubmit s' now' SendOutcome.thrown).timers
        = [{ delayMs := fixedDelayMs, action := TimerAction.resetStatusAndMessage }] ∧
      ∀ st : ComponentState,
        (runTimer TimerAction.resetStatusAndMessage st).status = Status.idle) := by
  refine ⟨?_, ?_, ?_, fun st => rfl⟩
  · simp [handleSubmit_invalid s now o msg hv]
  · simp [handleSubmit, hv']
  · simp [handleSubmit, hv']

/-- Witness for the amended C4 at phone `"123"` (validation failure) and at
`validFields` with a thrown send (delivery failure). -/
theorem submit_error_reset_timers_witness :
    ((handleSubmit (mkState phoneBadFields) "d" SendOutcome.thrown).state.status
        = Status.error ∧
      (handleSubmit (mkState phoneBadFields) "d" SendOutcome.thrown).timers = []) ∧
    ((handleSubmit (mkState validFields) "e" SendOutcome.thrown).state.status
        = Status.error ∧
      (handleSubmit (mkState validFields) "e" SendOutcome.thrown).timers
        = [{ delayMs := fixedDelayMs, action := TimerAction.resetStatusAndMessage }] ∧
      ∀ st : ComponentState,
        (runTimer TimerAction.resetStatusAndMessage st).status = Status.idle) :=
  submit_error_reset_timers (mkState phoneBadFields) (mkState validFields) "d" "e"
    SendOutcome.thrown phoneInvalidMessage (by decide) (by decide)

/-- Claim C5, counterexample: when the delivery call resolves with status
500 (a failing HTTP-like status that does not throw), `submit()` does not
set `status=error` and schedules no timer — `status` stays `sending` — so
"any other status" is not treated like a thrown fault. -/
theorem adapter_non200_counterexample :
    (handleSubmit (mkState validFields) "d" (SendOutcome.resolved 500)).state.status
      = Status.sending ∧
    (handleSubmit (mkState validFields) "d" (SendOutcome.resolved 500)).state.status
      ≠ Status.error ∧
    (handleSubmit (mkState validFields) "d" (SendOutcome.resolved 500)).timers = [] := by
  decide

/-- Claim C5 (amended): whenever the delivery call throws/rejects,
`submit()` sets `status=error` with the generic retry-prompting message,
leaves all six field values unchanged, and schedules the automatic return to
idle after the fixed 5000 ms delay.  (A call that resolves with a non-200
status is not handled this way: it leaves `status` at `sending` with no
timer, per C10.) -/
theorem submit_thrown_failure (s : ComponentState) (now : String)
    (hv : validateForm s.formData = none) :
    (handleSubmit s now SendOutcome.thrown).state.status = Status.error ∧
    (handleSubmit s now SendOutcome.thrown).state.errorMessage = genericErrorMessage ∧
    (handleSubmit s now SendOutcome.thrown).state.formData = s.formData ∧
    (handleSubmit s now SendOutcome.thrown).timers
      = [{ delayMs := fixedDelayMs, action := TimerAction.resetStatusAndMessage }] := by
  simp [handleSubmit, hv]

/-- Witness for the amended C5 at `validFields`. -/
theorem submit_thrown_failure_witness :
    (handleSubmit (mkState validFields) "d" SendOutcome.thrown).state.status
      = Status.error ∧
    (handleSubmit (mkState validFields) "d" SendOutcome.thrown).state.errorMessage
      = genericErrorMessage ∧
    (handleSubmit (mkState validFields) "d" SendOutcome.thrown).state.formData
      = (mkState validFields).formData ∧
    (handleSubmit (mkState validFields) "d" SendOutcome.thrown).timers
      = [{ delayMs := fixedDelayMs, action := TimerAction.resetStatusAndMessage }] :=
  submit_thrown_failure (mkState validFields) "d" (by decide)

/-- Claim C6: whenever the delivery call resolves with status 200,
`submit()` resets all six fields to the empty string, sets
`status=success`, and schedules a single-shot timer returning `status` to
idle after the fixed delay of 5000 ms (5 time units of one second). -/
theorem submit_success_resets (s : ComponentState) (now : String)
    (hv : validateForm s.formData = none) :
    (handleSubmit s now (SendOutcome.resolved 200)).state.formData = emptyFormData ∧
    (handleSubmit s now (SendOutcome.resolved 200)).state.status = Status.success ∧
    (handleSubmit s now (SendOutcome.resolved 200)).timers
      = [{ delayMs := fixedDelayMs, action := TimerAction.resetStatusToIdle }] ∧
    fixedDelayMs = 5000 ∧
    ∀ st : ComponentState,
      (runTimer TimerAction.resetStatusToIdle st).status = Status.idle := by
  refine ⟨?_, ?_, ?_, rfl, fun st => rfl⟩ <;> simp [handleSubmit, hv]

/-- Witness for C6 at `validFields`. -/
theorem submit_success_resets_witness :
    (handleSubmit (mkState validFields) "d" (SendOutcome.resolved 200)).state.formData
      = emptyFormData ∧
    (handleSubmit (mkState validFields) "d" (SendOutcome.resolved 200)).state.status
      = Status.success ∧
    (handleSubmit (mkState validFields) "d" (SendOutcome.resolved 200)).timers
      = [{ delayMs := fixedDelayMs, action := TimerAction.resetStatusToIdle }] ∧
    fixedDelayMs = 5000 ∧
    ∀ st : ComponentState,
      (runTimer TimerAction.resetStatusToIdle st).status = Status.idle :=
  submit_success_resets (mkState validFields) "d" (by decide)

/-- Claim C7: for every field state passing both validation checks, one
submit invocation makes exactly one delivery call (while `status` is not
already `sending`); and a submit attempt while `status=sending` is a no-op —
the rendered controls are disabled, so no state changes and no additional
delivery call is made. -/
theorem submit_single_call_and_sending_noop (s : ComponentState) (now : String)
    (o : SendOutcome) :
    (validateForm s.formData = none → s.status ≠ Status.sending →
      (triggerSubmit s now o).calls = [mkTemplateParams s.formData now]) ∧
    (s.status = Status.sending →
      triggerSubmit s now o = { state := s, calls := [], timers := [] }) := by
  constructor
  · intro hv hs
    rw [triggerSubmit, if_neg (by simpa [submitControlsDisabled] using hs)]
    exact handleSubmit_calls s now o hv
  · intro hs
    rw [triggerSubmit, if_pos (by simpa [submitControlsDisabled] using hs)]

/-- Witness for C7: at `validFields` from idle, one call is made; from a
`sending` state, the attempt is a no-op. -/
theorem submit_single_call_and_sending_noop_witness :
    (triggerSubmit (mkState validFields) "d" SendOutcome.thrown).calls
      = [mkTemplateParams validFields "d"] ∧
    triggerSubmit { mkState validFields with status := Status.sending } "d" SendOutcome.thrown
      = { state := { mkState validFields with status := Status.sending },
          calls := [], timers := [] } :=
  ⟨(submit_single_call_and_sending_noop (mkState validFields) "d" SendOutcome.thrown).1
      (by decide) (by decide),
   (submit_single_call_and_sending_noop
      { mkState validFields with status := Status.sending } "d" SendOutcome.thrown).2 rfl⟩

/-- Claim C8: for every current field state, field name and new value,
`handleChange` replaces exactly that one field's value, leaves the other
five fields unchanged, and performs no validation — `status` and
`errorMessage` are untouched. -/
theorem handleChange_updates_one_field (s : ComponentState) (n m : FieldName)
    (v : String) :
    getField (handleChange s n v).formData n = v ∧
    (m ≠ n → getField (handleChange s n v).formData m = getField s.formData m) ∧
    (handleChange s n v).status = s.status ∧
    (handleChange s n v).errorMessage = s.errorMessage := by
  refine ⟨?_, ?_, rfl, rfl⟩ <;> cases n <;> cases m <;>
    simp [handleChange, setField, getField]

/-- Witness for C8: updating the phone on a concrete state sets the phone
and leaves the email, status and error message unchanged. -/
theorem handleChange_updates_one_field_witness :
    getField (handleChange (mkState validFields) FieldName.phone "+212 600 0000").formData
        FieldName.phone = "+212 600 0000" ∧
    getField (handleChange (mkState validFields) FieldName.phone "+212 600 0000").formData
        FieldName.email = getField (mkState validFields).formData FieldName.email ∧
    (handleChange (mkState validFields) FieldName.phone "+212 600 0000").status
      = (mkState validFields).status ∧
    (handleChange (mkState validFields) FieldName.phone "+212 600 0000").errorMessage
      = (mkState validFields).errorMessage :=
  have h := handleChange_updates_one_field (mkState validFields)
    FieldName.phone FieldName.email "+212 600 0000"
  ⟨h.1, h.2.1 (by decide), h.2.2.1, h.2.2.2⟩

/-- A document whose only element is a `div` that already carries the marker
id (some other page code took the id). -/
def markedDivDoc : List DomElement :=
  [{ tag := "div", id := "contact-form-styles", textContent := "" }]

/-- A document whose only element is a `div` with an unrelated id. -/
def rootOnlyDoc : List DomElement :=
  [{ tag := "div", id := "root", textContent := "" }]

/-- Claim C9, counterexample: starting from a document whose only element is
a `div` already carrying the marker id `contact-form-styles`, performing the
injection twice leaves zero stylesheet (`style`) elements with the marker
id, not exactly one — the id check suppresses injection whatever element
holds the id, so the claim fails for arbitrary starting document states. -/
theorem injection_counterexample :
    countMarkedStyles (injectStyles (injectStyles markedDivDoc)) ≠ 1 := by
  decide

/-- Claim C9 (amended): the injection step is idempotent from every document
state (injecting twice gives the same document as injecting once), and from
any starting document containing no element with the marker id — in
particular a fresh page session — one or two injections leave exactly one
stylesheet element with the marker id. -/
theorem injectStyles_idempotent (d : List DomElement) :
    injectStyles (injectStyles d) = injectStyles d ∧
    ((∀ e ∈ d, e.id ≠ stylesId) →
      countMarkedStyles (injectStyles d) = 1 ∧
      countMarkedStyles (injectStyles (injectStyles d)) = 1) := by
  have hfind : ∀ l : List DomElement, getElementById l stylesId = none →
      getElementById (l ++ [{ tag := "style", id := stylesId, textContent := styles }])
        stylesId
      = some { tag := "style", id := stylesId, textContent := styles } := by
    intro l hl
    rw [getElementById] at hl ⊢
    induction l with
    | nil => simp
    | cons a t ih =>
      rw [List.find?_cons] at hl
      cases hp : decide (a.id = stylesId) with
      | true => simp [hp] at hl
      | false =>
        simp only [List.cons_append, List.find?_cons, hp]
        exact ih (by simpa [hp] using hl)
  have hidem : injectStyles (injectStyles d) = injectStyles d := by
    cases hd : getElementById d stylesId with
    | some e => simp [injectStyles, hd]
    | none => simp [injectStyles, hd, hfind d hd]
  refine ⟨hidem, fun h => ?_⟩
  have hd : getElementById d stylesId = none := by
    rw [getElementById]
    exact List.find?_eq_none.mpr (by simpa using h)
  have hcount : countMarkedStyles (injectStyles d) = 1 := by
    rw [injectStyles, hd, countMarkedStyles, List.filter_append,
      List.filter_eq_nil_iff.mpr (fun e he => by simp [h e he])]
    simp [stylesId]
  exact ⟨hcount, by rw [hidem]; exact hcount⟩

/-- Witness for the amended C9 at a one-element document without the marker
id. -/
theorem injectStyles_idempotent_witness :
    injectStyles (injectStyles rootOnlyDoc) = injectStyles rootOnlyDoc ∧
    countMarkedStyles (injectStyles rootOnlyDoc) = 1 ∧
    countMarkedStyles (injectStyles (injectStyles rootOnlyDoc)) = 1 :=
  have h := injectStyles_idempotent rootOnlyDoc
  ⟨h.1, (h.2 (by decide)).1, (h.2 (by decide)).2⟩

/-- Claim C10: when the delivery call resolves without throwing but with an
HTTP status other than 200, `submit()` performs no state change afterwards —
`status` remains `sending`, the error message stays empty, the six field
values are untouched, and no return-to-idle timer is scheduled. -/
theorem submit_non200_stays_sending (s : ComponentState) (now : String) (code : Nat)
    (hv : validateForm s.formData = none) (hc : code ≠ 200) :
    (handleSubmit s now (SendOutcome.resolved code)).state.status = Status.sending ∧
    (handleSubmit s now (SendOutcome.resolved code)).state.errorMessage = "" ∧
    (handleSubmit s now (SendOutcome.resolved code)).state.formData = s.formData ∧
    (handleSubmit s now (SendOutcome.resolved code)).timers = [] := by
  simp [handleSubmit, hv, hc]

/-- Witness for C10 at `validFields` with a resolved status of 500. -/
theorem submit_non200_stays_sending_witness :
    (handleSubmit (mkState validFields) "d" (SendOutcome.resolved 500)).state.status
      = Status.sending ∧
    (handleSubmit (mkState validFields) "d" (SendOutcome.resolved 500)).state.errorMessage
      = "" ∧
    (handleSubmit (mkState validFields) "d" (SendOutcome.resolved 500)).state.formData
      = (mkState validFields).formData ∧
    (handleSubmit (mkState validFields) "d" (SendOutcome.resolved 500)).timers = [] :=
  submit_non200_stays_sending (mkState validFields) "d" 500 (by decide) (by decide)

end ContactForm
